import Mathlib

/-!
# Network ACL rule resource of the HCI Terraform provider

A shallow embedding of `hci/resource_hci_network_acl_rule.go`: the four lifecycle
operations (Create, Read, Update, Delete) and the two field-population helpers,
written as pure functions that pass the resource data, the state of the remote
service and a trace of the collaborator calls explicitly.

What lies outside the file is kept abstract:

* the Unicode case tables consulted by `strings.EqualFold` and `strings.ToLower`
  on non-ASCII runes (`CaseTables`);
* the API client (`HciClient`): the environment resolver and the four
  `NetworkAclRules` endpoints are arbitrary state transformers over an arbitrary
  service state `σ`.
-/

namespace Hci

/-! ## Go strings -/

/-- The Unicode data the Go runtime consults for runes outside ASCII: `lower` is
`unicode.ToLower`, and `folds lo hi` (asked only for `lo < hi`, `hi` not ASCII) tells
whether walking `unicode.SimpleFold` from `lo` reaches `hi`. -/
structure CaseTables where
  lower : Char → Char
  folds : Char → Char → Bool

/-- One iteration of the loop of `strings.EqualFold` on the runes `sr` and `tr`:
equal runes match; otherwise the pair is ordered, an ASCII pair must be an upper-case
letter and its lower-case form, and any other pair is settled by the fold tables. -/
def runeEqualFold (U : CaseTables) (sr tr : Char) : Bool :=
  if tr = sr then true
  else
    let lo := if tr.toNat < sr.toNat then tr else sr
    let hi := if tr.toNat < sr.toNat then sr else tr
    if hi.toNat < 128 then
      decide (65 ≤ lo.toNat ∧ lo.toNat ≤ 90 ∧ hi.toNat = lo.toNat + 32)
    else U.folds lo hi

/-- The rune sequences compared by `strings.EqualFold`: both must be exhausted together. -/
def equalFoldRunes (U : CaseTables) : List Char → List Char → Bool
  | [], [] => true
  | [], _ :: _ => false
  | _ :: _, [] => false
  | sr :: s, tr :: t => runeEqualFold U sr tr && equalFoldRunes U s t

/-- Go `strings.EqualFold(s, t)`. -/
def equalFold (U : CaseTables) (s t : String) : Bool :=
  equalFoldRunes U s.data t.data

/-- The rune mapping of `strings.ToLower`: ASCII `A`..`Z` are shifted to `a`..`z`, other
ASCII runes are kept, the rest goes through the table. -/
def toLowerRune (U : CaseTables) (c : Char) : Char :=
  if c.toNat < 128 then c.toLower else U.lower c

/-- Go `strings.ToLower(s)`. -/
def toLower (U : CaseTables) (s : String) : String :=
  String.mk (s.data.map (toLowerRune U))

/-! ## Errors -/

/-- A Go `error` value: the text of `Error()` and whether it is the server response that
says the referenced resource no longer exists (the not-found condition). -/
structure GoError where
  message : String
  notFound : Bool
  deriving DecidableEq, Repr

/-- The error built by `fmt.Errorf` from the formatted text. -/
def errorf (text : String) : GoError :=
  { message := text, notFound := false }

/-! ## Data model -/

/-- The request and response record `hci.NetworkAclRule` of the API client library,
with the fields the resource uses. A Go struct literal leaves unnamed fields empty. -/
structure NetworkAclRule where
  Id : String := ""
  RuleNumber : String := ""
  Cidr : String := ""
  Action : String := ""
  Protocol : String := ""
  TrafficType : String := ""
  NetworkAclId : String := ""
  StartPort : String := ""
  EndPort : String := ""
  IcmpType : String := ""
  IcmpCode : String := ""
  deriving DecidableEq, Repr

/-- The resource data `*schema.ResourceData` handed to the lifecycle functions: the
resource id and one string per schema attribute. An unset attribute reads as the empty
string. -/
structure ResourceData where
  id : String := ""
  environment_id : String := ""
  rule_number : String := ""
  cidr : String := ""
  action : String := ""
  protocol : String := ""
  traffic_type : String := ""
  icmp_type : String := ""
  icmp_code : String := ""
  start_port : String := ""
  end_port : String := ""
  network_acl_id : String := ""
  deriving DecidableEq, Repr

namespace ResourceData

/-- The call `d.Id()`. -/
def Id (d : ResourceData) : String := d.id

/-- The call `d.SetId(v)`. -/
def SetId (d : ResourceData) (v : String) : ResourceData := { d with id := v }

/-- The call `d.Get(key).(string)` on an attribute of the schema. -/
def Get (d : ResourceData) (key : String) : String :=
  if key = "environment_id" then d.environment_id
  else if key = "rule_number" then d.rule_number
  else if key = "cidr" then d.cidr
  else if key = "action" then d.action
  else if key = "protocol" then d.protocol
  else if key = "traffic_type" then d.traffic_type
  else if key = "icmp_type" then d.icmp_type
  else if key = "icmp_code" then d.icmp_code
  else if key = "start_port" then d.start_port
  else if key = "end_port" then d.end_port
  else if key = "network_acl_id" then d.network_acl_id
  else ""

/-- The call `d.GetOk(key)`: the value, and whether it differs from the zero value of
its type (the empty string). -/
def GetOk (d : ResourceData) (key : String) : String × Bool :=
  (d.Get key, d.Get key != "")

/-- The call `d.Set(key, v)` with a string value: it stores the value under an attribute
of the schema and fails on any other key (every key used by the resource is in the
schema). -/
def Set (d : ResourceData) (key : String) (v : String) : Except GoError ResourceData :=
  if key = "environment_id" then .ok { d with environment_id := v }
  else if key = "rule_number" then .ok { d with rule_number := v }
  else if key = "cidr" then .ok { d with cidr := v }
  else if key = "action" then .ok { d with action := v }
  else if key = "protocol" then .ok { d with protocol := v }
  else if key = "traffic_type" then .ok { d with traffic_type := v }
  else if key = "icmp_type" then .ok { d with icmp_type := v }
  else if key = "icmp_code" then .ok { d with icmp_code := v }
  else if key = "start_port" then .ok { d with start_port := v }
  else if key = "end_port" then .ok { d with end_port := v }
  else if key = "network_acl_id" then .ok { d with network_acl_id := v }
  else .error (errorf ("Invalid address to set: " ++ key))

end ResourceData

/-! ## The API client -/

/-- The service `NetworkAclRules` of a resolved environment, over a remote state `σ`. -/
structure NetworkAclRuleService (σ : Type) where
  Create : NetworkAclRule → σ → Except GoError NetworkAclRule × σ
  Update : String → NetworkAclRule → σ → Except GoError NetworkAclRule × σ
  Get : String → σ → Except GoError NetworkAclRule × σ
  Delete : String → σ → Except GoError Bool × σ

/-- The handle returned by the environment resolver (`hciResources`). -/
structure Resources (σ : Type) where
  NetworkAclRules : NetworkAclRuleService σ

/-- The client handle `meta.(*hc.HciClient)` seen through the resolver
`getResourcesForEnvironmentID(client, environmentID)`. -/
structure HciClient (σ : Type) where
  getResourcesForEnvironmentID : String → σ → Except GoError (Resources σ) × σ

/-- A call made to a collaborator. -/
inductive Call where
  | Resolve (environmentId : String)
  | Create (rule : NetworkAclRule)
  | Update (id : String) (rule : NetworkAclRule)
  | Get (id : String)
  | Delete (id : String)
  deriving DecidableEq, Repr

/-- The world outside the resource: the remote state and the calls made so far, oldest
first. -/
structure Sys (σ : Type) where
  world : σ
  calls : List Call

/-- What a lifecycle function leaves behind: the returned error (`none` for `nil`), the
resource data and the world. -/
structure Outcome (σ : Type) where
  err : Option GoError
  d : ResourceData
  sys : Sys σ

variable {σ : Type}

/-- Runs `getResourcesForEnvironmentID(meta, environmentID)` and records the call. -/
def getResourcesForEnvironmentID (client : HciClient σ) (environmentID : String)
    (s : Sys σ) : Except GoError (Resources σ) × Sys σ :=
  ((client.getResourcesForEnvironmentID environmentID s.world).1,
    { world := (client.getResourcesForEnvironmentID environmentID s.world).2,
      calls := s.calls ++ [Call.Resolve environmentID] })

/-- Runs `hciResources.NetworkAclRules.Create(rule)` and records the call. -/
def callCreate (r : Resources σ) (rule : NetworkAclRule) (s : Sys σ) :
    Except GoError NetworkAclRule × Sys σ :=
  ((r.NetworkAclRules.Create rule s.world).1,
    { world := (r.NetworkAclRules.Create rule s.world).2,
      calls := s.calls ++ [Call.Create rule] })

/-- Runs `hciResources.NetworkAclRules.Update(id, rule)` and records the call. -/
def callUpdate (r : Resources σ) (id : String) (rule : NetworkAclRule) (s : Sys σ) :
    Except GoError NetworkAclRule × Sys σ :=
  ((r.NetworkAclRules.Update id rule s.world).1,
    { world := (r.NetworkAclRules.Update id rule s.world).2,
      calls := s.calls ++ [Call.Update id rule] })

/-- Runs `hciResources.NetworkAclRules.Get(id)` and records the call. -/
def callGet (r : Resources σ) (id : String) (s : Sys σ) :
    Except GoError NetworkAclRule × Sys σ :=
  ((r.NetworkAclRules.Get id s.world).1,
    { world := (r.NetworkAclRules.Get id s.world).2,
      calls := s.calls ++ [Call.Get id] })

/-- Runs `hciResources.NetworkAclRules.Delete(id)` and records the call. -/
def callDelete (r : Resources σ) (id : String) (s : Sys σ) :
    Except GoError Bool × Sys σ :=
  ((r.NetworkAclRules.Delete id s.world).1,
    { world := (r.NetworkAclRules.Delete id s.world).2,
      calls := s.calls ++ [Call.Delete id] })

/-! ## The resource -/

/-- Protocol constant `TCP`. -/
def TCP : String := "TCP"

/-- Protocol constant `UDP`. -/
def UDP : String := "UDP"

/-- Protocol constant `ICMP`. -/
def ICMP : String := "ICMP"

/-- `fillPortFields(d, &aclRule)`. -/
def fillPortFields (d : ResourceData) (aclRule : NetworkAclRule) : NetworkAclRule :=
  let aclRule :=
    if (d.GetOk "start_port").2 then { aclRule with StartPort := (d.GetOk "start_port").1 }
    else aclRule
  if (d.GetOk "end_port").2 then { aclRule with EndPort := (d.GetOk "end_port").1 }
  else aclRule

/-- `fillIcmpFields(d, &aclRule)`. -/
def fillIcmpFields (d : ResourceData) (aclRule : NetworkAclRule) : NetworkAclRule :=
  let aclRule :=
    if (d.GetOk "icmp_type").2 then { aclRule with IcmpType := (d.GetOk "icmp_type").1 }
    else aclRule
  if (d.GetOk "icmp_code").2 then { aclRule with IcmpCode := (d.GetOk "icmp_code").1 }
  else aclRule

/-- The rule `aclRuleToCreate` of Create once both helpers have run on it: the struct
literal built from the resource data, then `fillPortFields`, then `fillIcmpFields`. -/
def aclRuleToCreate (d : ResourceData) : NetworkAclRule :=
  let aclRuleToCreate : NetworkAclRule :=
    { RuleNumber := d.Get "rule_number"
      Cidr := d.Get "cidr"
      Action := d.Get "action"
      Protocol := d.Get "protocol"
      TrafficType := d.Get "traffic_type"
      NetworkAclId := d.Get "network_acl_id" }
  let aclRuleToCreate := fillPortFields d aclRuleToCreate
  fillIcmpFields d aclRuleToCreate

/-- The rule `aclRuleToUpdate` of Update once both helpers have run on it. -/
def aclRuleToUpdate (d : ResourceData) : NetworkAclRule :=
  let aclRuleToUpdate : NetworkAclRule :=
    { Id := d.Id
      RuleNumber := d.Get "rule_number"
      Cidr := d.Get "cidr"
      Action := d.Get "action"
      Protocol := d.Get "protocol"
      TrafficType := d.Get "traffic_type" }
  let aclRuleToUpdate := fillPortFields d aclRuleToUpdate
  fillIcmpFields d aclRuleToUpdate

/-- The state left by a not-found condition: the resource is gone from local state, its
id and every attribute are empty. -/
def ResourceData.cleared : ResourceData := {}

/-- Modelled from the spec: `handleNotFoundError(entity, deleted, err, d)` is defined in
another file of the repository. By the spec a not-found condition is not surfaced as a
failure: on read the local state is cleared, on delete the deletion is considered
complete; the state is cleared for both values of `deleted`, the entity being gone either
way. Any other error is returned as it is and the state is kept. -/
def handleNotFoundError (_entity : String) (_deleted : Bool) (err : GoError)
    (d : ResourceData) : Option GoError × ResourceData :=
  if err.notFound then (none, ResourceData.cleared) else (some err, d)

/-- One guarded setter of Read: `if err := d.Set(key, v); err != nil { return
fmt.Errorf("Error reading Trigger: %s", err) }`, followed by the rest of the function. -/
def setOrFail (d : ResourceData) (key v : String) (s : Sys σ)
    (rest : ResourceData → Outcome σ) : Outcome σ :=
  match d.Set key v with
  | .error err => { err := some (errorf ("Error reading Trigger: " ++ err.message)), d := d, sys := s }
  | .ok d1 => rest d1

/-- `resourceHciNetworkACLRuleRead(d, meta)`. -/
def resourceHciNetworkACLRuleRead (U : CaseTables) (d : ResourceData) (client : HciClient σ)
    (s : Sys σ) : Outcome σ :=
  match getResourcesForEnvironmentID client (d.Get "environment_id") s with
  | (.error rerr, s1) => { err := some rerr, d := d, sys := s1 }
  | (.ok hciResources, s1) =>
    match callGet hciResources d.Id s1 with
    | (.error aErr, s2) =>
      { err := (handleNotFoundError "Network ACL rule" false aErr d).1,
        d := (handleNotFoundError "Network ACL rule" false aErr d).2,
        sys := s2 }
    | (.ok aclRule, s2) =>
      setOrFail d "rule_number" aclRule.RuleNumber s2 fun d =>
      setOrFail d "action" (toLower U aclRule.Action) s2 fun d =>
      setOrFail d "protocol" (toLower U aclRule.Protocol) s2 fun d =>
      setOrFail d "traffic_type" (toLower U aclRule.TrafficType) s2 fun d =>
      setOrFail d "icmp_type" aclRule.IcmpType s2 fun d =>
      setOrFail d "icmp_code" aclRule.IcmpCode s2 fun d =>
      setOrFail d "start_port" aclRule.StartPort s2 fun d =>
      setOrFail d "end_port" aclRule.EndPort s2 fun d =>
      setOrFail d "network_acl_id" aclRule.NetworkAclId s2 fun d =>
      { err := none, d := d, sys := s2 }

/-- `resourceHciNetworkACLRuleCreate(d, meta)`. -/
def resourceHciNetworkACLRuleCreate (U : CaseTables) (d : ResourceData) (client : HciClient σ)
    (s : Sys σ) : Outcome σ :=
  match getResourcesForEnvironmentID client (d.Get "environment_id") s with
  | (.error rerr, s1) => { err := some rerr, d := d, sys := s1 }
  | (.ok hciResources, s1) =>
    let aclRuleToCreate := aclRuleToCreate d
    if !(equalFold U TCP aclRuleToCreate.Protocol || equalFold U UDP aclRuleToCreate.Protocol)
        && (aclRuleToCreate.StartPort != "" || aclRuleToCreate.EndPort != "") then
      { err := some (errorf "Cannot have ports if not TCP or UDP protocol"), d := d, sys := s1 }
    else if !equalFold U ICMP aclRuleToCreate.Protocol
        && (aclRuleToCreate.IcmpType != "" || aclRuleToCreate.IcmpCode != "") then
      { err := some (errorf "Cannot have icmp fields if not ICMP protocol"), d := d, sys := s1 }
    else
      match callCreate hciResources aclRuleToCreate s1 with
      | (.error err, s2) =>
        { err := some (errorf ("Error creating the new network ACL rule "
            ++ aclRuleToCreate.RuleNumber ++ ": " ++ err.message)),
          d := d, sys := s2 }
      | (.ok newACLRule, s2) =>
        resourceHciNetworkACLRuleRead U (d.SetId newACLRule.Id) client s2

/-- `resourceHciNetworkACLRuleUpdate(d, meta)`. -/
def resourceHciNetworkACLRuleUpdate (d : ResourceData) (client : HciClient σ)
    (s : Sys σ) : Outcome σ :=
  match getResourcesForEnvironmentID client (d.Get "environment_id") s with
  | (.error rerr, s1) => { err := some rerr, d := d, sys := s1 }
  | (.ok hciResources, s1) =>
    let aclRuleToUpdate := aclRuleToUpdate d
    match callUpdate hciResources d.Id aclRuleToUpdate s1 with
    | (.error err, s2) => { err := some err, d := d, sys := s2 }
    | (.ok _, s2) => { err := none, d := d, sys := s2 }

/-- `resourceHciNetworkACLRuleDelete(d, meta)`. -/
def resourceHciNetworkACLRuleDelete (d : ResourceData) (client : HciClient σ)
    (s : Sys σ) : Outcome σ :=
  match getResourcesForEnvironmentID client (d.Get "environment_id") s with
  | (.error rerr, s1) => { err := some rerr, d := d, sys := s1 }
  | (.ok hciResources, s1) =>
    match callDelete hciResources d.Id s1 with
    | (.error err, s2) =>
      { err := (handleNotFoundError "Network ACL rule" true err d).1,
        d := (handleNotFoundError "Network ACL rule" true err d).2,
        sys := s2 }
    | (.ok _, s2) => { err := none, d := d, sys := s2 }

/-! ## Two clients to run the resource on concrete inputs -/

/-- An in-memory service: the remote state is the list of stored rules, Create stores the
rule under a fresh id, the other endpoints answer not-found for an id that is not stored. -/
def memService : NetworkAclRuleService (List NetworkAclRule) where
  Create := fun rule w =>
    (.ok { rule with Id := "rule-" ++ toString w.length },
      w ++ [{ rule with Id := "rule-" ++ toString w.length }])
  Update := fun id rule w =>
    if w.any (fun r => r.Id == id) then
      (.ok rule, w.map fun r => if r.Id == id then rule else r)
    else (.error { message := "rule not found", notFound := true }, w)
  Get := fun id w =>
    match w.find? (fun r => r.Id == id) with
    | some r => (.ok r, w)
    | none => (.error { message := "rule not found", notFound := true }, w)
  Delete := fun id w =>
    if w.any (fun r => r.Id == id) then (.ok true, w.filter fun r => r.Id != id)
    else (.error { message := "rule not found", notFound := true }, w)

/-- A client over the in-memory service; only the environment `env-1` exists. -/
def memClient : HciClient (List NetworkAclRule) where
  getResourcesForEnvironmentID := fun environmentID w =>
    if environmentID = "env-1" then (.ok { NetworkAclRules := memService }, w)
    else (.error { message := "environment not found", notFound := true }, w)

/-- A service whose endpoints all fail with a server error that is not a not-found
condition. -/
def downService : NetworkAclRuleService Unit where
  Create := fun _ w => (.error { message := "service unavailable", notFound := false }, w)
  Update := fun _ _ w => (.error { message := "service unavailable", notFound := false }, w)
  Get := fun _ w => (.error { message := "service unavailable", notFound := false }, w)
  Delete := fun _ w => (.error { message := "service unavailable", notFound := false }, w)

/-- A client that resolves every environment to the failing service. -/
def downClient : HciClient Unit where
  getResourcesForEnvironmentID := fun _ w => (.ok { NetworkAclRules := downService }, w)

/-- Case tables without any non-ASCII case pair, for running ASCII inputs, on which the
tables are not consulted. -/
def asciiTables : CaseTables where
  lower := fun c => c
  folds := fun _ _ => false

/-- Whether the runes `part` occur as a contiguous run in `text`. -/
def containsRunes : List Char → List Char → Bool
  | [], part => part.isEmpty
  | c :: text, part => part.isPrefixOf (c :: text) || containsRunes text part

/-- Go `strings.Contains(text, part)`. -/
def strContains (text part : String) : Bool :=
  containsRunes text.data part.data

/-! ## The payload built from the resource data -/

/-- On a rule without ports, `fillPortFields` copies both port attributes: an attribute
that `GetOk` reports as unset is the empty string, which the rule holds already. -/
theorem fillPortFields_eq (d : ResourceData) (r : NetworkAclRule)
    (h1 : r.StartPort = "") (h2 : r.EndPort = "") :
    fillPortFields d r = { r with StartPort := d.start_port, EndPort := d.end_port } := by
  cases r
  simp only at h1 h2
  subst h1 h2
  by_cases hs : d.start_port = "" <;> by_cases he : d.end_port = "" <;>
    simp [fillPortFields, ResourceData.GetOk, ResourceData.Get, hs, he]

/-- On a rule without ICMP fields, `fillIcmpFields` copies both ICMP attributes. -/
theorem fillIcmpFields_eq (d : ResourceData) (r : NetworkAclRule)
    (h1 : r.IcmpType = "") (h2 : r.IcmpCode = "") :
    fillIcmpFields d r = { r with IcmpType := d.icmp_type, IcmpCode := d.icmp_code } := by
  cases r
  simp only at h1 h2
  subst h1 h2
  by_cases hs : d.icmp_type = "" <;> by_cases he : d.icmp_code = "" <;>
    simp [fillIcmpFields, ResourceData.GetOk, ResourceData.Get, hs, he]

/-- The payload Create sends: every attribute but `environment_id`, no id. -/
theorem create_payload (d : ResourceData) :
    aclRuleToCreate d =
      { RuleNumber := d.rule_number
        Cidr := d.cidr
        Action := d.action
        Protocol := d.protocol
        TrafficType := d.traffic_type
        NetworkAclId := d.network_acl_id
        StartPort := d.start_port
        EndPort := d.end_port
        IcmpType := d.icmp_type
        IcmpCode := d.icmp_code } := by
  simp only [aclRuleToCreate]
  rw [fillPortFields_eq d _ rfl rfl, fillIcmpFields_eq d _ rfl rfl]
  simp [ResourceData.Get]

/-- The payload Update sends: the id and every attribute but `environment_id` and
`network_acl_id`. -/
theorem update_payload (d : ResourceData) :
    aclRuleToUpdate d =
      { Id := d.id
        RuleNumber := d.rule_number
        Cidr := d.cidr
        Action := d.action
        Protocol := d.protocol
        TrafficType := d.traffic_type
        StartPort := d.start_port
        EndPort := d.end_port
        IcmpType := d.icmp_type
        IcmpCode := d.icmp_code } := by
  simp only [aclRuleToUpdate]
  rw [fillPortFields_eq d _ rfl rfl, fillIcmpFields_eq d _ rfl rfl]
  simp [ResourceData.Get, ResourceData.Id]

/-- The shape of Create once the environment is resolved: the two validations read on the
attributes (ports need `TCP` or `UDP`, ICMP fields need `ICMP`), then the create endpoint
is called with the payload, its error is wrapped, and on success the id is stored and
Read runs. -/
theorem create_eq (U : CaseTables) (d : ResourceData) (client : HciClient σ) (s : Sys σ)
    (res : Resources σ) (w1 : σ)
    (hres : client.getResourcesForEnvironmentID d.environment_id s.world = (.ok res, w1)) :
    resourceHciNetworkACLRuleCreate U d client s =
      if !(equalFold U TCP d.protocol || equalFold U UDP d.protocol)
          && (d.start_port != "" || d.end_port != "") then
        { err := some (errorf "Cannot have ports if not TCP or UDP protocol"), d := d,
          sys := { world := w1, calls := s.calls ++ [Call.Resolve d.environment_id] } }
      else if !equalFold U ICMP d.protocol && (d.icmp_type != "" || d.icmp_code != "") then
        { err := some (errorf "Cannot have icmp fields if not ICMP protocol"), d := d,
          sys := { world := w1, calls := s.calls ++ [Call.Resolve d.environment_id] } }
      else
        match res.NetworkAclRules.Create (aclRuleToCreate d) w1 with
        | (.error err, w2) =>
          { err := some (errorf ("Error creating the new network ACL rule "
              ++ d.rule_number ++ ": " ++ err.message)),
            d := d,
            sys := { world := w2, calls := s.calls ++ [Call.Resolve d.environment_id,
              Call.Create (aclRuleToCreate d)] } }
        | (.ok newACLRule, w2) =>
          resourceHciNetworkACLRuleRead U (d.SetId newACLRule.Id) client
            { world := w2, calls := s.calls ++ [Call.Resolve d.environment_id,
              Call.Create (aclRuleToCreate d)] } := by
  have henv : d.Get "environment_id" = d.environment_id := rfl
  have h1 : (aclRuleToCreate d).Protocol = d.protocol := by rw [create_payload]
  have h2 : (aclRuleToCreate d).StartPort = d.start_port := by rw [create_payload]
  have h3 : (aclRuleToCreate d).EndPort = d.end_port := by rw [create_payload]
  have h4 : (aclRuleToCreate d).IcmpType = d.icmp_type := by rw [create_payload]
  have h5 : (aclRuleToCreate d).IcmpCode = d.icmp_code := by rw [create_payload]
  have h6 : (aclRuleToCreate d).RuleNumber = d.rule_number := by rw [create_payload]
  simp only [resourceHciNetworkACLRuleCreate, getResourcesForEnvironmentID, henv, hres,
    h1, h2, h3, h4, h5, h6, callCreate]
  split
  · rfl
  · split
    · rfl
    · rcases hc : res.NetworkAclRules.Create (aclRuleToCreate d) w1 with ⟨c, w2⟩
      cases c <;> simp

/-- The shape of Read once the environment is resolved and the get endpoint has answered
with a rule: every attribute but `cidr` and `environment_id` is overwritten from the rule,
the three enumerations in lower case, and no error is returned. -/
theorem read_eq (U : CaseTables) (d : ResourceData) (client : HciClient σ) (s : Sys σ)
    (res : Resources σ) (w1 w2 : σ) (r : NetworkAclRule)
    (hres : client.getResourcesForEnvironmentID d.environment_id s.world = (.ok res, w1))
    (hget : res.NetworkAclRules.Get d.id w1 = (.ok r, w2)) :
    resourceHciNetworkACLRuleRead U d client s =
      { err := none
        d :=
          { id := d.id
            environment_id := d.environment_id
            rule_number := r.RuleNumber
            cidr := d.cidr
            action := toLower U r.Action
            protocol := toLower U r.Protocol
            traffic_type := toLower U r.TrafficType
            icmp_type := r.IcmpType
            icmp_code := r.IcmpCode
            start_port := r.StartPort
            end_port := r.EndPort
            network_acl_id := r.NetworkAclId }
        sys := { world := w2, calls := s.calls ++ [Call.Resolve d.environment_id,
          Call.Get d.id] } } := by
  have henv : d.Get "environment_id" = d.environment_id := rfl
  have hid : d.Id = d.id := rfl
  simp [resourceHciNetworkACLRuleRead, getResourcesForEnvironmentID, henv, hres, hid, callGet,
    hget, setOrFail, ResourceData.Set]

/-! ## Validation in Create -/

/-- C1. Create with the environment resolved, a protocol that `strings.EqualFold` matches
with neither `TCP` nor `UDP`, and a non-empty `start_port` or `end_port`: the function
returns the ports validation error, the only collaborator call it has made is the
environment resolution (no `NetworkAclRules` endpoint is called), and the resource data,
its id included, is as before. -/
theorem create_rejects_ports_without_tcp_udp (U : CaseTables) (d : ResourceData)
    (client : HciClient σ) (s : Sys σ) (res : Resources σ) (w1 : σ)
    (hres : client.getResourcesForEnvironmentID d.environment_id s.world = (.ok res, w1))
    (htcp : equalFold U TCP d.protocol = false)
    (hudp : equalFold U UDP d.protocol = false)
    (hport : d.start_port ≠ "" ∨ d.end_port ≠ "") :
    resourceHciNetworkACLRuleCreate U d client s =
      { err := some (errorf "Cannot have ports if not TCP or UDP protocol")
        d := d
        sys := { world := w1, calls := s.calls ++ [Call.Resolve d.environment_id] } } := by
  have henv : d.Get "environment_id" = d.environment_id := rfl
  simp only [resourceHciNetworkACLRuleCreate, getResourcesForEnvironmentID, create_payload,
    henv, hres]
  rcases hport with h | h <;> simp [htcp, hudp, h]

/-- Witness for C1: protocol `all` with `start_port = 80` on the in-memory client. -/
theorem create_rejects_ports_without_tcp_udp_witness :
    resourceHciNetworkACLRuleCreate asciiTables
        { environment_id := "env-1", rule_number := "100", protocol := "all",
          start_port := "80" } memClient { world := [], calls := [] } =
      { err := some (errorf "Cannot have ports if not TCP or UDP protocol")
        d := { environment_id := "env-1", rule_number := "100", protocol := "all",
               start_port := "80" }
        sys := { world := [], calls := [] ++ [Call.Resolve "env-1"] } } :=
  create_rejects_ports_without_tcp_udp asciiTables
    { environment_id := "env-1", rule_number := "100", protocol := "all", start_port := "80" }
    memClient { world := [], calls := [] } { NetworkAclRules := memService } []
    rfl (by decide) (by decide) (Or.inl (by decide))

/-- C2. Create with the environment resolved, a protocol that `strings.EqualFold` does not
match with `ICMP`, and a non-empty `icmp_type` or `icmp_code`: the function returns a
validation error (the ICMP one, unless the ports check, which runs first, has fired; with
both port attributes empty it is the ICMP one), the only collaborator call it has made is
the environment resolution, and the resource data, its id included, is as before. -/
theorem create_rejects_icmp_fields_without_icmp (U : CaseTables) (d : ResourceData)
    (client : HciClient σ) (s : Sys σ) (res : Resources σ) (w1 : σ)
    (hres : client.getResourcesForEnvironmentID d.environment_id s.world = (.ok res, w1))
    (hicmp : equalFold U ICMP d.protocol = false)
    (hfield : d.icmp_type ≠ "" ∨ d.icmp_code ≠ "") :
    ((resourceHciNetworkACLRuleCreate U d client s).err =
        some (errorf "Cannot have icmp fields if not ICMP protocol") ∨
      (resourceHciNetworkACLRuleCreate U d client s).err =
        some (errorf "Cannot have ports if not TCP or UDP protocol")) ∧
    (d.start_port = "" ∧ d.end_port = "" →
      (resourceHciNetworkACLRuleCreate U d client s).err =
        some (errorf "Cannot have icmp fields if not ICMP protocol")) ∧
    (resourceHciNetworkACLRuleCreate U d client s).d = d ∧
    (resourceHciNetworkACLRuleCreate U d client s).sys =
      { world := w1, calls := s.calls ++ [Call.Resolve d.environment_id] } := by
  have henv : d.Get "environment_id" = d.environment_id := rfl
  have hf : (d.icmp_type != "" || d.icmp_code != "") = true := by
    rcases hfield with h | h <;> simp [h]
  simp only [resourceHciNetworkACLRuleCreate, getResourcesForEnvironmentID, create_payload,
    henv, hres, hicmp, hf]
  by_cases hp : (!(equalFold U TCP d.protocol || equalFold U UDP d.protocol)
      && (d.start_port != "" || d.end_port != "")) = true
  · rw [if_pos hp]
    refine ⟨Or.inr rfl, ?_, rfl, rfl⟩
    rintro ⟨h1, h2⟩
    simp [h1, h2] at hp
  · rw [if_neg hp]
    simp

/-- Witness for C2: protocol `tcp` with `icmp_type = 8` and no port on the in-memory
client; the error is the ICMP one. -/
theorem create_rejects_icmp_fields_without_icmp_witness :
    (resourceHciNetworkACLRuleCreate asciiTables
        { environment_id := "env-1", rule_number := "100", protocol := "tcp",
          icmp_type := "8" } memClient { world := [], calls := [] }).err =
      some (errorf "Cannot have icmp fields if not ICMP protocol") ∧
    (resourceHciNetworkACLRuleCreate asciiTables
        { environment_id := "env-1", rule_number := "100", protocol := "tcp",
          icmp_type := "8" } memClient { world := [], calls := [] }).d =
      { environment_id := "env-1", rule_number := "100", protocol := "tcp", icmp_type := "8" } ∧
    (resourceHciNetworkACLRuleCreate asciiTables
        { environment_id := "env-1", rule_number := "100", protocol := "tcp",
          icmp_type := "8" } memClient { world := [], calls := [] }).sys =
      { world := [], calls := [Call.Resolve "env-1"] } :=
  (fun h => ⟨h.2.1 ⟨rfl, rfl⟩, h.2.2.1, h.2.2.2⟩)
    (create_rejects_icmp_fields_without_icmp asciiTables
      { environment_id := "env-1", rule_number := "100", protocol := "tcp", icmp_type := "8" }
      memClient { world := [], calls := [] } { NetworkAclRules := memService } []
      rfl (by decide) (Or.inl (by decide)))

/-! ## Environment resolution -/

/-- C9. When resolving the environment of the resource fails, each of Create, Read, Update
and Delete returns the resolution error itself, has made the resolution call and no call to
a `NetworkAclRules` endpoint, and leaves the resource data (id and attributes) as it was. -/
theorem resolution_failure_aborts (U : CaseTables) (d : ResourceData)
    (client : HciClient σ) (s : Sys σ) (rerr : GoError) (w1 : σ)
    (hres : client.getResourcesForEnvironmentID d.environment_id s.world = (.error rerr, w1)) :
    resourceHciNetworkACLRuleCreate U d client s =
      { err := some rerr, d := d,
        sys := { world := w1, calls := s.calls ++ [Call.Resolve d.environment_id] } } ∧
    resourceHciNetworkACLRuleRead U d client s =
      { err := some rerr, d := d,
        sys := { world := w1, calls := s.calls ++ [Call.Resolve d.environment_id] } } ∧
    resourceHciNetworkACLRuleUpdate d client s =
      { err := some rerr, d := d,
        sys := { world := w1, calls := s.calls ++ [Call.Resolve d.environment_id] } } ∧
    resourceHciNetworkACLRuleDelete d client s =
      { err := some rerr, d := d,
        sys := { world := w1, calls := s.calls ++ [Call.Resolve d.environment_id] } } := by
  have henv : d.Get "environment_id" = d.environment_id := rfl
  refine ⟨?_, ?_, ?_, ?_⟩
  · simp only [resourceHciNetworkACLRuleCreate, getResourcesForEnvironmentID, henv, hres]
  · simp only [resourceHciNetworkACLRuleRead, getResourcesForEnvironmentID, henv, hres]
  · simp only [resourceHciNetworkACLRuleUpdate, getResourcesForEnvironmentID, henv, hres]
  · simp only [resourceHciNetworkACLRuleDelete, getResourcesForEnvironmentID, henv, hres]

/-- Witness for C9: the in-memory client does not know the environment `env-2`. -/
theorem resolution_failure_aborts_witness :
    resourceHciNetworkACLRuleCreate asciiTables
        { id := "rule-0", environment_id := "env-2", protocol := "tcp" } memClient
        { world := [], calls := [] } =
      { err := some { message := "environment not found", notFound := true },
        d := { id := "rule-0", environment_id := "env-2", protocol := "tcp" },
        sys := { world := [], calls := [] ++ [Call.Resolve "env-2"] } } ∧
    resourceHciNetworkACLRuleRead asciiTables
        { id := "rule-0", environment_id := "env-2", protocol := "tcp" } memClient
        { world := [], calls := [] } =
      { err := some { message := "environment not found", notFound := true },
        d := { id := "rule-0", environment_id := "env-2", protocol := "tcp" },
        sys := { world := [], calls := [] ++ [Call.Resolve "env-2"] } } ∧
    resourceHciNetworkACLRuleUpdate
        { id := "rule-0", environment_id := "env-2", protocol := "tcp" } memClient
        { world := [], calls := [] } =
      { err := some { message := "environment not found", notFound := true },
        d := { id := "rule-0", environment_id := "env-2", protocol := "tcp" },
        sys := { world := [], calls := [] ++ [Call.Resolve "env-2"] } } ∧
    resourceHciNetworkACLRuleDelete
        { id := "rule-0", environment_id := "env-2", protocol := "tcp" } memClient
        { world := [], calls := [] } =
      { err := some { message := "environment not found", notFound := true },
        d := { id := "rule-0", environment_id := "env-2", protocol := "tcp" },
        sys := { world := [], calls := [] ++ [Call.Resolve "env-2"] } } :=
  resolution_failure_aborts asciiTables
    { id := "rule-0", environment_id := "env-2", protocol := "tcp" } memClient
    { world := [], calls := [] } { message := "environment not found", notFound := true } []
    rfl

/-! ## Update -/

/-- The shape of Update: it returns the resolution error, or else the error of the update
endpoint (or none), leaves the resource data alone, and calls the resolver and, once
resolved, the update endpoint with the payload built from the resource data. -/
theorem update_eq (d : ResourceData) (client : HciClient σ) (s : Sys σ) :
    resourceHciNetworkACLRuleUpdate d client s =
      match client.getResourcesForEnvironmentID d.environment_id s.world with
      | (.error rerr, w1) =>
        { err := some rerr, d := d,
          sys := { world := w1, calls := s.calls ++ [Call.Resolve d.environment_id] } }
      | (.ok res, w1) =>
        { err :=
            match (res.NetworkAclRules.Update d.id (aclRuleToUpdate d) w1).1 with
            | .error err => some err
            | .ok _ => none
          d := d
          sys :=
            { world := (res.NetworkAclRules.Update d.id (aclRuleToUpdate d) w1).2
              calls := s.calls ++ [Call.Resolve d.environment_id,
                Call.Update d.id (aclRuleToUpdate d)] } } := by
  have henv : d.Get "environment_id" = d.environment_id := rfl
  have hid : d.Id = d.id := rfl
  simp only [resourceHciNetworkACLRuleUpdate, getResourcesForEnvironmentID, henv, callUpdate,
    hid]
  rcases hr : client.getResourcesForEnvironmentID d.environment_id s.world with ⟨r, w1⟩
  cases r with
  | error rerr => rfl
  | ok res =>
    simp only
    rcases hu : res.NetworkAclRules.Update d.id (aclRuleToUpdate d) w1 with ⟨u, w2⟩
    cases u <;> simp

/-- C7. Whatever the resource data, the client and the outcome of its calls, Update leaves
`environment_id`, `protocol`, `network_acl_id` and the resource id as they were, indeed
the whole resource data (it writes nothing to local state), and it makes no call to the
get endpoint (no re-read): every `Get` in the trace was there before. -/
theorem update_preserves_immutable_fields (d : ResourceData) (client : HciClient σ)
    (s : Sys σ) :
    (resourceHciNetworkACLRuleUpdate d client s).d.environment_id = d.environment_id ∧
    (resourceHciNetworkACLRuleUpdate d client s).d.protocol = d.protocol ∧
    (resourceHciNetworkACLRuleUpdate d client s).d.network_acl_id = d.network_acl_id ∧
    (resourceHciNetworkACLRuleUpdate d client s).d.id = d.id ∧
    (resourceHciNetworkACLRuleUpdate d client s).d = d ∧
    ∀ id, Call.Get id ∈ (resourceHciNetworkACLRuleUpdate d client s).sys.calls →
      Call.Get id ∈ s.calls := by
  rw [update_eq]
  rcases hr : client.getResourcesForEnvironmentID d.environment_id s.world with ⟨r, w1⟩
  cases r <;> simp

/-- After a failed resolution Create has made the resolution call only. -/
theorem resolution_failure_calls (U : CaseTables) (d : ResourceData) (client : HciClient σ)
    (s : Sys σ) (rerr : GoError) (w1 : σ)
    (hres : client.getResourcesForEnvironmentID d.environment_id s.world = (.error rerr, w1)) :
    (resourceHciNetworkACLRuleCreate U d client s).sys.calls =
      s.calls ++ [Call.Resolve d.environment_id] := by
  have henv : d.Get "environment_id" = d.environment_id := rfl
  simp only [resourceHciNetworkACLRuleCreate, getResourcesForEnvironmentID, henv, hres]

/-! ## The payload invariant -/

/-- Read calls the resolver and the get endpoint only. -/
theorem read_calls (U : CaseTables) (d : ResourceData) (client : HciClient σ) (s : Sys σ)
    (c : Call) (hc : c ∈ (resourceHciNetworkACLRuleRead U d client s).sys.calls) :
    c ∈ s.calls ∨ c = Call.Resolve d.environment_id ∨ c = Call.Get d.id := by
  have henv : d.Get "environment_id" = d.environment_id := rfl
  have hid : d.Id = d.id := rfl
  simp only [resourceHciNetworkACLRuleRead, getResourcesForEnvironmentID, henv, hid, callGet]
    at hc
  rcases hr : client.getResourcesForEnvironmentID d.environment_id s.world with ⟨x, w1⟩
  rw [hr] at hc
  cases x with
  | error rerr =>
    simp only [List.mem_append, List.mem_singleton] at hc
    rcases hc with h | h
    · exact Or.inl h
    · exact Or.inr (Or.inl h)
  | ok res =>
    simp only at hc
    rcases hg : res.NetworkAclRules.Get d.id w1 with ⟨y, w2⟩
    rw [hg] at hc
    cases y with
    | error aErr =>
      simp only [List.append_assoc, List.mem_append, List.mem_cons, List.mem_singleton,
        List.mem_nil_iff, or_false] at hc
      rcases hc with h | h | h
      · exact Or.inl h
      · exact Or.inr (Or.inl h)
      · exact Or.inr (Or.inr h)
    | ok r =>
      simp only [setOrFail, ResourceData.Set, String.reduceEq, ↓reduceIte, List.append_assoc,
        List.mem_append, List.mem_cons, List.mem_singleton, List.mem_nil_iff, or_false] at hc
      rcases hc with h | h | h
      · exact Or.inl h
      · exact Or.inr (Or.inl h)
      · exact Or.inr (Or.inr h)

/-- The Create half of the payload invariant: a rule that Create passes to the create
endpoint has ports only under `TCP` or `UDP` and ICMP fields only under `ICMP`. -/
theorem create_payload_respects_protocol (U : CaseTables) (d : ResourceData)
    (client : HciClient σ) (s : Sys σ) (rule : NetworkAclRule)
    (hc : Call.Create rule ∈ (resourceHciNetworkACLRuleCreate U d client s).sys.calls)
    (hnew : Call.Create rule ∉ s.calls) :
    ((rule.StartPort ≠ "" ∨ rule.EndPort ≠ "") →
      equalFold U TCP rule.Protocol = true ∨ equalFold U UDP rule.Protocol = true) ∧
    ((rule.IcmpType ≠ "" ∨ rule.IcmpCode ≠ "") → equalFold U ICMP rule.Protocol = true) := by
  rcases hr : client.getResourcesForEnvironmentID d.environment_id s.world with ⟨x, w1⟩
  cases x with
  | error rerr =>
    have h := (resolution_failure_calls U d client s rerr w1 hr)
    rw [h] at hc
    simp at hc
    exact absurd hc hnew
  | ok res =>
    rw [create_eq U d client s res w1 hr] at hc
    by_cases h1 : (!(equalFold U TCP d.protocol || equalFold U UDP d.protocol)
        && (d.start_port != "" || d.end_port != "")) = true
    · rw [if_pos h1] at hc
      simp at hc
      exact absurd hc hnew
    · rw [if_neg h1] at hc
      by_cases h2 : (!equalFold U ICMP d.protocol
          && (d.icmp_type != "" || d.icmp_code != "")) = true
      · rw [if_pos h2] at hc
        simp at hc
        exact absurd hc hnew
      · rw [if_neg h2] at hc
        have hrule : rule = aclRuleToCreate d := by
          rcases hcr : res.NetworkAclRules.Create (aclRuleToCreate d) w1 with ⟨y, w2⟩
          rw [hcr] at hc
          cases y with
          | error err =>
            simp at hc
            rcases hc with h | h
            · exact absurd h hnew
            · exact h
          | ok newACLRule =>
            simp only at hc
            rcases read_calls U _ client _ _ hc with h | h | h
            · simp at h
              rcases h with h | h
              · exact absurd h hnew
              · exact h
            · cases h
            · cases h
        subst hrule
        rw [create_payload]
        simp only [ne_eq]
        simp only [Bool.and_eq_true, Bool.not_eq_true', Bool.or_eq_true, bne_iff_ne, ne_eq,
          not_and, not_or, Bool.or_eq_false_iff, Bool.not_eq_false] at h1 h2
        constructor
        · intro hp
          by_contra hcon
          simp only [not_or, Bool.not_eq_true] at hcon
          have := h1 hcon
          tauto
        · intro hp
          by_contra hcon
          simp only [Bool.not_eq_true] at hcon
          have := h2 hcon
          tauto

/-- C3, the Update half fails. An ICMP rule whose resource data also holds
`start_port = 80` is sent to the update endpoint as it is: Update returns no error, and the
payload it has passed to `NetworkAclRules.Update` has a non-empty `StartPort` although its
protocol matches neither `TCP` nor `UDP`. -/
theorem update_sends_ports_on_icmp_rule (U : CaseTables) :
    (resourceHciNetworkACLRuleUpdate
        { id := "rule-0", environment_id := "env-1", rule_number := "100",
          cidr := "10.0.0.0/8", action := "allow", protocol := "icmp",
          traffic_type := "ingress", icmp_type := "8", icmp_code := "0",
          start_port := "80", network_acl_id := "acl-1" }
        memClient
        { world := [{ Id := "rule-0", RuleNumber := "100", Cidr := "10.0.0.0/8",
                      Action := "allow", Protocol := "icmp", TrafficType := "ingress",
                      NetworkAclId := "acl-1", IcmpType := "8", IcmpCode := "0" }],
          calls := [] }).sys.calls =
      [Call.Resolve "env-1",
        Call.Update "rule-0"
          { Id := "rule-0", RuleNumber := "100", Cidr := "10.0.0.0/8", Action := "allow",
            Protocol := "icmp", TrafficType := "ingress", StartPort := "80",
            IcmpType := "8", IcmpCode := "0" }] ∧
    (resourceHciNetworkACLRuleUpdate
        { id := "rule-0", environment_id := "env-1", rule_number := "100",
          cidr := "10.0.0.0/8", action := "allow", protocol := "icmp",
          traffic_type := "ingress", icmp_type := "8", icmp_code := "0",
          start_port := "80", network_acl_id := "acl-1" }
        memClient
        { world := [{ Id := "rule-0", RuleNumber := "100", Cidr := "10.0.0.0/8",
                      Action := "allow", Protocol := "icmp", TrafficType := "ingress",
                      NetworkAclId := "acl-1", IcmpType := "8", IcmpCode := "0" }],
          calls := [] }).err = none ∧
    equalFold U TCP "icmp" = false ∧ equalFold U UDP "icmp" = false := by
  refine ⟨by decide, by decide, rfl, rfl⟩

/-! ## Failures of the API call -/

/-- C8 as stated fails for Update: with the update endpoint answering `service
unavailable` for rule number `100`, Update returns that very error, whose message does not
contain the rule number. -/
theorem update_failure_is_not_wrapped :
    (resourceHciNetworkACLRuleUpdate
        { id := "rule-0", environment_id := "env-1", rule_number := "100",
          cidr := "10.0.0.0/8", action := "allow", protocol := "tcp",
          traffic_type := "ingress" }
        downClient { world := (), calls := [] }).err =
      some { message := "service unavailable", notFound := false } ∧
    strContains "service unavailable" "100" = false := by
  refine ⟨by decide, by decide⟩

/-- C8, amended. Once the environment is resolved: if the validations of Create pass and
the create endpoint fails, Create returns a new error whose message is `Error creating the
new network ACL rule `, the rule number, `: ` and the message of the API error; if the
update endpoint fails, Update returns the API error itself. Neither writes to the resource
data. -/
theorem api_failure_reporting (U : CaseTables) (d : ResourceData) (client : HciClient σ)
    (s : Sys σ) (res : Resources σ) (w1 w2 : σ) (err : GoError)
    (hres : client.getResourcesForEnvironmentID d.environment_id s.world = (.ok res, w1)) :
    ((equalFold U TCP d.protocol = true ∨ equalFold U UDP d.protocol = true ∨
        (d.start_port = "" ∧ d.end_port = "")) →
      (equalFold U ICMP d.protocol = true ∨ (d.icmp_type = "" ∧ d.icmp_code = "")) →
      res.NetworkAclRules.Create (aclRuleToCreate d) w1 = (.error err, w2) →
      resourceHciNetworkACLRuleCreate U d client s =
        { err := some (errorf ("Error creating the new network ACL rule "
            ++ d.rule_number ++ ": " ++ err.message))
          d := d
          sys := { world := w2, calls := s.calls ++ [Call.Resolve d.environment_id,
            Call.Create (aclRuleToCreate d)] } }) ∧
    (res.NetworkAclRules.Update d.id (aclRuleToUpdate d) w1 = (.error err, w2) →
      resourceHciNetworkACLRuleUpdate d client s =
        { err := some err
          d := d
          sys := { world := w2, calls := s.calls ++ [Call.Resolve d.environment_id,
            Call.Update d.id (aclRuleToUpdate d)] } }) := by
  constructor
  · intro hports hicmp hcreate
    rw [create_eq U d client s res w1 hres]
    have h1 : (!(equalFold U TCP d.protocol || equalFold U UDP d.protocol)
        && (d.start_port != "" || d.end_port != "")) = false := by
      rcases hports with h | h | ⟨h, h'⟩ <;> simp [h, *]
    have h2 : (!equalFold U ICMP d.protocol
        && (d.icmp_type != "" || d.icmp_code != "")) = false := by
      rcases hicmp with h | ⟨h, h'⟩ <;> simp [h, *]
    simp only [h1, h2, hcreate, Bool.false_eq_true, ↓reduceIte]
  · intro hupdate
    rw [update_eq, hres]
    simp [hupdate]

/-- Witness for C8, amended: a TCP rule numbered `100` against the failing service. -/
theorem api_failure_reporting_witness :
    resourceHciNetworkACLRuleCreate asciiTables
        { id := "rule-0", environment_id := "env-1", rule_number := "100", protocol := "tcp",
          start_port := "80" } downClient { world := (), calls := [] } =
      { err := some (errorf ("Error creating the new network ACL rule "
          ++ "100" ++ ": " ++ "service unavailable"))
        d := { id := "rule-0", environment_id := "env-1", rule_number := "100",
               protocol := "tcp", start_port := "80" }
        sys := { world := (), calls := [] ++ [Call.Resolve "env-1",
          Call.Create (aclRuleToCreate
            { id := "rule-0", environment_id := "env-1", rule_number := "100",
              protocol := "tcp", start_port := "80" })] } } ∧
    resourceHciNetworkACLRuleUpdate
        { id := "rule-0", environment_id := "env-1", rule_number := "100", protocol := "tcp",
          start_port := "80" } downClient { world := (), calls := [] } =
      { err := some { message := "service unavailable", notFound := false }
        d := { id := "rule-0", environment_id := "env-1", rule_number := "100",
               protocol := "tcp", start_port := "80" }
        sys := { world := (), calls := [] ++ [Call.Resolve "env-1",
          Call.Update "rule-0" (aclRuleToUpdate
            { id := "rule-0", environment_id := "env-1", rule_number := "100",
              protocol := "tcp", start_port := "80" })] } } :=
  ⟨(api_failure_reporting asciiTables
      { id := "rule-0", environment_id := "env-1", rule_number := "100", protocol := "tcp",
        start_port := "80" } downClient { world := (), calls := [] }
      { NetworkAclRules := downService } () ()
      { message := "service unavailable", notFound := false } rfl).1
      (Or.inl (by decide)) (Or.inr ⟨rfl, rfl⟩) rfl,
    (api_failure_reporting asciiTables
      { id := "rule-0", environment_id := "env-1", rule_number := "100", protocol := "tcp",
        start_port := "80" } downClient { world := (), calls := [] }
      { NetworkAclRules := downService } () ()
      { message := "service unavailable", notFound := false } rfl).2 rfl⟩

/-! ## Create, success path -/

/-- C4. A configuration whose protocol `strings.EqualFold` matches with `TCP` or with `UDP`,
with any ports and no ICMP field, against a client on which the resolution, the create call,
the second resolution (made by Read) and the get call succeed, the get call answering with
the rule as it was sent plus the new id: Create returns no error, the resource id is the id
returned by the create endpoint, the protocol in state is the lower-cased protocol of the
configuration, and the calls made are resolve, create, resolve, get. -/
theorem create_tcp_udp_succeeds (U : CaseTables) (d : ResourceData) (client : HciClient σ)
    (s : Sys σ) (res res2 : Resources σ) (w1 w2 w3 w4 : σ) (newACLRule : NetworkAclRule)
    (hproto : equalFold U TCP d.protocol = true ∨ equalFold U UDP d.protocol = true)
    (hicmp : d.icmp_type = "" ∧ d.icmp_code = "")
    (hres : client.getResourcesForEnvironmentID d.environment_id s.world = (.ok res, w1))
    (hcreate : res.NetworkAclRules.Create (aclRuleToCreate d) w1 = (.ok newACLRule, w2))
    (hres2 : client.getResourcesForEnvironmentID d.environment_id w2 = (.ok res2, w3))
    (hget : res2.NetworkAclRules.Get newACLRule.Id w3 =
      (.ok { aclRuleToCreate d with Id := newACLRule.Id }, w4)) :
    (resourceHciNetworkACLRuleCreate U d client s).err = none ∧
    (resourceHciNetworkACLRuleCreate U d client s).d.id = newACLRule.Id ∧
    (resourceHciNetworkACLRuleCreate U d client s).d.protocol = toLower U d.protocol ∧
    (resourceHciNetworkACLRuleCreate U d client s).sys =
      { world := w4
        calls := s.calls ++ [Call.Resolve d.environment_id, Call.Create (aclRuleToCreate d),
          Call.Resolve d.environment_id, Call.Get newACLRule.Id] } := by
  have h1 : (!(equalFold U TCP d.protocol || equalFold U UDP d.protocol)
      && (d.start_port != "" || d.end_port != "")) = false := by
    rcases hproto with h | h <;> simp [h]
  have h2 : (!equalFold U ICMP d.protocol
      && (d.icmp_type != "" || d.icmp_code != "")) = false := by
    simp [hicmp.1, hicmp.2]
  have hp : (aclRuleToCreate d).Protocol = d.protocol := by rw [create_payload]
  rw [create_eq U d client s res w1 hres]
  simp only [h1, h2, hcreate, Bool.false_eq_true, ↓reduceIte]
  rw [read_eq U (d.SetId newACLRule.Id) client ⟨w2, _⟩ res2 w3 w4
    { aclRuleToCreate d with Id := newACLRule.Id } hres2 hget]
  simp [ResourceData.SetId, hp]

/-- Witness for C4: `protocol = TCP`, `start_port = 80`, `end_port = 443` on the in-memory
client; the state reads back `tcp`. -/
theorem create_tcp_udp_succeeds_witness :
    (resourceHciNetworkACLRuleCreate asciiTables
        { environment_id := "env-1", rule_number := "100", cidr := "10.0.0.0/8",
          action := "Allow", protocol := "TCP", traffic_type := "Ingress",
          start_port := "80", end_port := "443", network_acl_id := "acl-1" }
        memClient { world := [], calls := [] }).err = none ∧
    (resourceHciNetworkACLRuleCreate asciiTables
        { environment_id := "env-1", rule_number := "100", cidr := "10.0.0.0/8",
          action := "Allow", protocol := "TCP", traffic_type := "Ingress",
          start_port := "80", end_port := "443", network_acl_id := "acl-1" }
        memClient { world := [], calls := [] }).d.id = "rule-0" ∧
    (resourceHciNetworkACLRuleCreate asciiTables
        { environment_id := "env-1", rule_number := "100", cidr := "10.0.0.0/8",
          action := "Allow", protocol := "TCP", traffic_type := "Ingress",
          start_port := "80", end_port := "443", network_acl_id := "acl-1" }
        memClient { world := [], calls := [] }).d.protocol = "tcp" ∧
    (resourceHciNetworkACLRuleCreate asciiTables
        { environment_id := "env-1", rule_number := "100", cidr := "10.0.0.0/8",
          action := "Allow", protocol := "TCP", traffic_type := "Ingress",
          start_port := "80", end_port := "443", network_acl_id := "acl-1" }
        memClient { world := [], calls := [] }).sys =
      { world := [{ Id := "rule-0", RuleNumber := "100", Cidr := "10.0.0.0/8",
                    Action := "Allow", Protocol := "TCP", TrafficType := "Ingress",
                    NetworkAclId := "acl-1", StartPort := "80", EndPort := "443" }]
        calls := [Call.Resolve "env-1",
          Call.Create
            { RuleNumber := "100", Cidr := "10.0.0.0/8", Action := "Allow", Protocol := "TCP",
              TrafficType := "Ingress", NetworkAclId := "acl-1", StartPort := "80",
              EndPort := "443" },
          Call.Resolve "env-1", Call.Get "rule-0"] } :=
  create_tcp_udp_succeeds asciiTables
    { environment_id := "env-1", rule_number := "100", cidr := "10.0.0.0/8",
      action := "Allow", protocol := "TCP", traffic_type := "Ingress",
      start_port := "80", end_port := "443", network_acl_id := "acl-1" }
    memClient { world := [], calls := [] }
    { NetworkAclRules := memService } { NetworkAclRules := memService }
    []
    [{ Id := "rule-0", RuleNumber := "100", Cidr := "10.0.0.0/8",
       Action := "Allow", Protocol := "TCP", TrafficType := "Ingress",
       NetworkAclId := "acl-1", StartPort := "80", EndPort := "443" }]
    [{ Id := "rule-0", RuleNumber := "100", Cidr := "10.0.0.0/8",
       Action := "Allow", Protocol := "TCP", TrafficType := "Ingress",
       NetworkAclId := "acl-1", StartPort := "80", EndPort := "443" }]
    [{ Id := "rule-0", RuleNumber := "100", Cidr := "10.0.0.0/8",
       Action := "Allow", Protocol := "TCP", TrafficType := "Ingress",
       NetworkAclId := "acl-1", StartPort := "80", EndPort := "443" }]
    { Id := "rule-0", RuleNumber := "100", Cidr := "10.0.0.0/8",
      Action := "Allow", Protocol := "TCP", TrafficType := "Ingress",
      NetworkAclId := "acl-1", StartPort := "80", EndPort := "443" }
    (Or.inl (by decide)) ⟨rfl, rfl⟩ rfl rfl rfl rfl

/-! ## Read -/

/-- C5. With the environment resolved and the get endpoint failing with any error `aErr`,
Read hands the error and the resource data exactly as it received it to
`handleNotFoundError` and returns what that gives, having called the resolver and the get
endpoint only: no setter of the success path runs before or after, whatever the error is.
When `aErr` is the not-found condition, Read therefore returns no error and leaves the
cleared state: the resource id and every attribute are empty. -/
theorem read_not_found_clears_state (U : CaseTables) (d : ResourceData)
    (client : HciClient σ) (s : Sys σ) (res : Resources σ) (w1 w2 : σ) (aErr : GoError)
    (hres : client.getResourcesForEnvironmentID d.environment_id s.world = (.ok res, w1))
    (hget : res.NetworkAclRules.Get d.id w1 = (.error aErr, w2)) :
    (resourceHciNetworkACLRuleRead U d client s).err =
      (handleNotFoundError "Network ACL rule" false aErr d).1 ∧
    (resourceHciNetworkACLRuleRead U d client s).d =
      (handleNotFoundError "Network ACL rule" false aErr d).2 ∧
    (resourceHciNetworkACLRuleRead U d client s).sys =
      { world := w2, calls := s.calls ++ [Call.Resolve d.environment_id, Call.Get d.id] } ∧
    (aErr.notFound = true →
      resourceHciNetworkACLRuleRead U d client s =
        { err := none
          d :=
            { id := "", environment_id := "", rule_number := "", cidr := "", action := "",
              protocol := "", traffic_type := "", icmp_type := "", icmp_code := "",
              start_port := "", end_port := "", network_acl_id := "" }
          sys := { world := w2, calls := s.calls ++ [Call.Resolve d.environment_id,
            Call.Get d.id] } }) := by
  have henv : d.Get "environment_id" = d.environment_id := rfl
  have hid : d.Id = d.id := rfl
  have h : resourceHciNetworkACLRuleRead U d client s =
      { err := (handleNotFoundError "Network ACL rule" false aErr d).1
        d := (handleNotFoundError "Network ACL rule" false aErr d).2
        sys := { world := w2, calls := s.calls ++ [Call.Resolve d.environment_id,
          Call.Get d.id] } } := by
    simp [resourceHciNetworkACLRuleRead, getResourcesForEnvironmentID, henv, hres, hid,
      callGet, hget]
  refine ⟨by rw [h], by rw [h], by rw [h], ?_⟩
  intro hnf
  rw [h]
  simp [handleNotFoundError, hnf, ResourceData.cleared]

/-- Witness for C5: the in-memory service stores no rule, so `rule-7` is not found; the
outcome is the handler's on the resource data as received, and it is the cleared state. -/
theorem read_not_found_clears_state_witness :
    (resourceHciNetworkACLRuleRead asciiTables
        { id := "rule-7", environment_id := "env-1", rule_number := "100",
          cidr := "10.0.0.0/8", action := "allow", protocol := "tcp",
          traffic_type := "ingress", start_port := "80", network_acl_id := "acl-1" }
        memClient { world := [], calls := [] }).err =
      (handleNotFoundError "Network ACL rule" false
        { message := "rule not found", notFound := true }
        { id := "rule-7", environment_id := "env-1", rule_number := "100",
          cidr := "10.0.0.0/8", action := "allow", protocol := "tcp",
          traffic_type := "ingress", start_port := "80", network_acl_id := "acl-1" }).1 ∧
    (resourceHciNetworkACLRuleRead asciiTables
        { id := "rule-7", environment_id := "env-1", rule_number := "100",
          cidr := "10.0.0.0/8", action := "allow", protocol := "tcp",
          traffic_type := "ingress", start_port := "80", network_acl_id := "acl-1" }
        memClient { world := [], calls := [] }).d =
      (handleNotFoundError "Network ACL rule" false
        { message := "rule not found", notFound := true }
        { id := "rule-7", environment_id := "env-1", rule_number := "100",
          cidr := "10.0.0.0/8", action := "allow", protocol := "tcp",
          traffic_type := "ingress", start_port := "80", network_acl_id := "acl-1" }).2 ∧
    (resourceHciNetworkACLRuleRead asciiTables
        { id := "rule-7", environment_id := "env-1", rule_number := "100",
          cidr := "10.0.0.0/8", action := "allow", protocol := "tcp",
          traffic_type := "ingress", start_port := "80", network_acl_id := "acl-1" }
        memClient { world := [], calls := [] }).sys =
      { world := [], calls := [Call.Resolve "env-1", Call.Get "rule-7"] } ∧
    resourceHciNetworkACLRuleRead asciiTables
        { id := "rule-7", environment_id := "env-1", rule_number := "100",
          cidr := "10.0.0.0/8", action := "allow", protocol := "tcp",
          traffic_type := "ingress", start_port := "80", network_acl_id := "acl-1" }
        memClient { world := [], calls := [] } =
      { err := none
        d :=
          { id := "", environment_id := "", rule_number := "", cidr := "", action := "",
            protocol := "", traffic_type := "", icmp_type := "", icmp_code := "",
            start_port := "", end_port := "", network_acl_id := "" }
        sys := { world := [], calls := [Call.Resolve "env-1", Call.Get "rule-7"] } } :=
  (fun h => ⟨h.1, h.2.1, h.2.2.1, h.2.2.2 rfl⟩)
    (read_not_found_clears_state asciiTables
      { id := "rule-7", environment_id := "env-1", rule_number := "100",
        cidr := "10.0.0.0/8", action := "allow", protocol := "tcp",
        traffic_type := "ingress", start_port := "80", network_acl_id := "acl-1" }
      memClient { world := [], calls := [] } { NetworkAclRules := memService } [] []
      { message := "rule not found", notFound := true } rfl rfl)

/-- C10. With the environment resolved and the get endpoint answering with the rule `r`,
Read returns no error and stores `action`, `protocol` and `traffic_type` as the lower-cased
fields of `r`, `rule_number`, `icmp_type`, `icmp_code`, `start_port`, `end_port` and
`network_acl_id` as they are in `r`, and keeps `cidr`, `environment_id` and the resource
id. A second Read from the resulting state, in any world where the environment resolves
again and the get endpoint gives the same `r`, returns no error and leaves that state as it
is. -/
theorem read_success_mapping (U : CaseTables) (d : ResourceData) (client : HciClient σ)
    (s : Sys σ) (res : Resources σ) (w1 w2 : σ) (r : NetworkAclRule)
    (hres : client.getResourcesForEnvironmentID d.environment_id s.world = (.ok res, w1))
    (hget : res.NetworkAclRules.Get d.id w1 = (.ok r, w2)) :
    resourceHciNetworkACLRuleRead U d client s =
      { err := none
        d :=
          { id := d.id
            environment_id := d.environment_id
            rule_number := r.RuleNumber
            cidr := d.cidr
            action := toLower U r.Action
            protocol := toLower U r.Protocol
            traffic_type := toLower U r.TrafficType
            icmp_type := r.IcmpType
            icmp_code := r.IcmpCode
            start_port := r.StartPort
            end_port := r.EndPort
            network_acl_id := r.NetworkAclId }
        sys := { world := w2, calls := s.calls ++ [Call.Resolve d.environment_id,
          Call.Get d.id] } } ∧
    ∀ (t : Sys σ) (res2 : Resources σ) (w3 w4 : σ),
      client.getResourcesForEnvironmentID d.environment_id t.world = (.ok res2, w3) →
      res2.NetworkAclRules.Get d.id w3 = (.ok r, w4) →
      (resourceHciNetworkACLRuleRead U (resourceHciNetworkACLRuleRead U d client s).d
          client t).err = none ∧
      (resourceHciNetworkACLRuleRead U (resourceHciNetworkACLRuleRead U d client s).d
          client t).d = (resourceHciNetworkACLRuleRead U d client s).d := by
  have h := read_eq U d client s res w1 w2 r hres hget
  refine ⟨h, ?_⟩
  intro t res2 w3 w4 hres2 hget2
  have h2 := read_eq U (resourceHciNetworkACLRuleRead U d client s).d client t res2 w3 w4 r
    (by rw [h]; exact hres2) (by rw [h]; exact hget2)
  rw [h2, h]
  exact ⟨rfl, rfl⟩

/-- Witness for C10: the stored rule has upper-case enumerations; Read lowers them, and a
second Read in the world left by the first changes nothing. -/
theorem read_success_mapping_witness :
    resourceHciNetworkACLRuleRead asciiTables
        { id := "rule-0", environment_id := "env-1", cidr := "10.0.0.0/8" } memClient
        { world := [{ Id := "rule-0", RuleNumber := "100", Cidr := "10.0.0.0/8",
                      Action := "Allow", Protocol := "TCP", TrafficType := "Ingress",
                      NetworkAclId := "acl-1", StartPort := "80", EndPort := "443" }],
          calls := [] } =
      { err := none
        d :=
          { id := "rule-0", environment_id := "env-1", rule_number := "100",
            cidr := "10.0.0.0/8", action := "allow", protocol := "tcp",
            traffic_type := "ingress", icmp_type := "", icmp_code := "",
            start_port := "80", end_port := "443", network_acl_id := "acl-1" }
        sys :=
          { world := [{ Id := "rule-0", RuleNumber := "100", Cidr := "10.0.0.0/8",
                        Action := "Allow", Protocol := "TCP", TrafficType := "Ingress",
                        NetworkAclId := "acl-1", StartPort := "80", EndPort := "443" }],
            calls := [Call.Resolve "env-1", Call.Get "rule-0"] } } ∧
    (resourceHciNetworkACLRuleRead asciiTables
        (resourceHciNetworkACLRuleRead asciiTables
          { id := "rule-0", environment_id := "env-1", cidr := "10.0.0.0/8" } memClient
          { world := [{ Id := "rule-0", RuleNumber := "100", Cidr := "10.0.0.0/8",
                        Action := "Allow", Protocol := "TCP", TrafficType := "Ingress",
                        NetworkAclId := "acl-1", StartPort := "80", EndPort := "443" }],
            calls := [] }).d
        memClient
        { world := [{ Id := "rule-0", RuleNumber := "100", Cidr := "10.0.0.0/8",
                      Action := "Allow", Protocol := "TCP", TrafficType := "Ingress",
                      NetworkAclId := "acl-1", StartPort := "80", EndPort := "443" }],
          calls := [Call.Resolve "env-1", Call.Get "rule-0"] }).d =
      { id := "rule-0", environment_id := "env-1", rule_number := "100",
        cidr := "10.0.0.0/8", action := "allow", protocol := "tcp",
        traffic_type := "ingress", icmp_type := "", icmp_code := "",
        start_port := "80", end_port := "443", network_acl_id := "acl-1" } :=
  ⟨(read_success_mapping asciiTables
      { id := "rule-0", environment_id := "env-1", cidr := "10.0.0.0/8" } memClient
      { world := [{ Id := "rule-0", RuleNumber := "100", Cidr := "10.0.0.0/8",
                    Action := "Allow", Protocol := "TCP", TrafficType := "Ingress",
                    NetworkAclId := "acl-1", StartPort := "80", EndPort := "443" }],
        calls := [] }
      { NetworkAclRules := memService } _ _ _ rfl rfl).1,
    ((read_success_mapping asciiTables
      { id := "rule-0", environment_id := "env-1", cidr := "10.0.0.0/8" } memClient
      { world := [{ Id := "rule-0", RuleNumber := "100", Cidr := "10.0.0.0/8",
                    Action := "Allow", Protocol := "TCP", TrafficType := "Ingress",
                    NetworkAclId := "acl-1", StartPort := "80", EndPort := "443" }],
        calls := [] }
      { NetworkAclRules := memService } _ _ _ rfl rfl).2
      { world := [{ Id := "rule-0", RuleNumber := "100", Cidr := "10.0.0.0/8",
                    Action := "Allow", Protocol := "TCP", TrafficType := "Ingress",
                    NetworkAclId := "acl-1", StartPort := "80", EndPort := "443" }],
        calls := [Call.Resolve "env-1", Call.Get "rule-0"] }
      { NetworkAclRules := memService } _ _ rfl rfl).2⟩

/-! ## Delete -/

/-- C6. With the environment resolved, if the delete endpoint succeeds or reports the id as
not found, Delete returns no error; the calls made are the resolution and the delete. -/
theorem delete_not_found_is_success (d : ResourceData) (client : HciClient σ) (s : Sys σ)
    (res : Resources σ) (w1 w2 : σ) (out : Except GoError Bool)
    (hres : client.getResourcesForEnvironmentID d.environment_id s.world = (.ok res, w1))
    (hdel : res.NetworkAclRules.Delete d.id w1 = (out, w2))
    (hout : (∃ b, out = .ok b) ∨ (∃ err, out = .error err ∧ err.notFound = true)) :
    (resourceHciNetworkACLRuleDelete d client s).err = none ∧
    (resourceHciNetworkACLRuleDelete d client s).sys =
      { world := w2, calls := s.calls ++ [Call.Resolve d.environment_id,
        Call.Delete d.id] } := by
  have henv : d.Get "environment_id" = d.environment_id := rfl
  have hid : d.Id = d.id := rfl
  rcases hout with ⟨b, rfl⟩ | ⟨err, rfl, hnf⟩
  · simp [resourceHciNetworkACLRuleDelete, getResourcesForEnvironmentID, henv, hres, hid,
      callDelete, hdel]
  · simp [resourceHciNetworkACLRuleDelete, getResourcesForEnvironmentID, henv, hres, hid,
      callDelete, hdel, handleNotFoundError, hnf]

/-- Witness for C6: deleting `rule-7`, which the in-memory service does not store. -/
theorem delete_not_found_is_success_witness :
    (resourceHciNetworkACLRuleDelete
        { id := "rule-7", environment_id := "env-1", protocol := "tcp" } memClient
        { world := [], calls := [] }).err = none ∧
    (resourceHciNetworkACLRuleDelete
        { id := "rule-7", environment_id := "env-1", protocol := "tcp" } memClient
        { world := [], calls := [] }).sys =
      { world := [], calls := [] ++ [Call.Resolve "env-1", Call.Delete "rule-7"] } :=
  delete_not_found_is_success
    { id := "rule-7", environment_id := "env-1", protocol := "tcp" } memClient
    { world := [], calls := [] } { NetworkAclRules := memService } [] []
    (.error { message := "rule not found", notFound := true }) rfl rfl
    (Or.inr ⟨{ message := "rule not found", notFound := true }, rfl, rfl⟩)

end Hci
